import Mathlib

/-!
Shallow embedding of the LaicaFM backend (src/backend/server.py): the radio
playback state machine, the websocket connection manager with its broadcast
fan-out, the playlist `$addToSet` update, and the upload validation path.
Python floats reported over the wire are modelled as JSON numeric values
carrying integers (no claim depends on fractional parts); `datetime.utcnow()`
timestamps are abstract `Nat` instants passed in by the caller.
-/

namespace LaicaFM

/-- A JSON value, as produced by `json.loads` on an inbound websocket text
frame. Numbers carry integers; no modelled behaviour depends on fractional
parts. -/
inductive Json where
  | null
  | bool (b : Bool)
  | num (n : Int)
  | str (s : String)
  | arr (xs : List Json)
  | obj (fields : List (String × Json))

/-- Holds exactly for JSON objects (Python dicts): only on these does
`message.get(...)` succeed; on every other value it raises `AttributeError`. -/
def Json.isObj : Json → Bool
  | .obj _ => true
  | _ => false

/-- Python `fields.get(k)` on a JSON object: value of the first binding of key `k`,
if any (Python dict keys are unique; first binding models the dict entry). -/
def lookupField (fields : List (String × Json)) (k : String) : Option Json :=
  (fields.find? (fun p => p.1 == k)).map (fun p => p.2)

/-- The `Song` pydantic model: `id`, `title`, `artist`, `filename`,
`duration` (float, modelled as `Int`), `file_size`. The `upload_date`
timestamp is an abstract `Nat`. -/
structure Song where
  id : String
  title : String
  artist : String
  filename : String
  duration : Int
  file_size : Nat
  upload_date : Nat
deriving DecidableEq, Repr

/-- The `Playlist` pydantic model / stored document: `id`, `name`, `songs`
(list of song ids), `is_active`. The creation timestamp is an abstract
`Nat`. -/
structure Playlist where
  id : String
  name : String
  songs : List String
  created_date : Nat
  is_active : Bool
deriving DecidableEq, Repr

/-- The process-wide `RadioState` object: `current_song`, `playlist`,
`is_playing`, `is_live`, `listeners`, `current_position` (a raw JSON value,
since the websocket handler assigns `message.get("position", 0.0)` without
validation), `start_time`. -/
structure RadioState where
  current_song : Option Song
  playlist : List Song
  is_playing : Bool
  is_live : Bool
  listeners : Nat
  current_position : Json
  start_time : Option Nat

/-- The constructor `RadioState.__init__`: no song, empty playlist, not playing, not live,
zero listeners, position `0.0`, no start time. -/
def initRadio : RadioState :=
  { current_song := none
    playlist := []
    is_playing := false
    is_live := false
    listeners := 0
    current_position := Json.num 0
    start_time := none }

/-- The payload assembled by `ConnectionManager.broadcast_radio_state`:
the serialized fields `current_song`, `is_playing`, `is_live`, `listeners`,
`current_position` (the `"type": "radio_state"` tag is implicit). -/
structure Snapshot where
  current_song : Option Song
  is_playing : Bool
  is_live : Bool
  listeners : Nat
  current_position : Json

/-- Serialize the current `RadioState` into the broadcast payload. -/
def snapshotOf (s : RadioState) : Snapshot :=
  { current_song := s.current_song
    is_playing := s.is_playing
    is_live := s.is_live
    listeners := s.listeners
    current_position := s.current_position }

/-! ## Radio control endpoints (`/radio/play`, `/radio/pause`, `/radio/next`)

Each endpoint returns the new `RadioState` together with the list of
radio-state broadcasts it performed, in order: `[snapshotOf s]` whenever the
code reached `await manager.broadcast_radio_state()`, `[]` otherwise.
`hyd` is the result of the playlist hydration query (the songs of the active
playlist loaded from the document store; `[]` when no active playlist exists
or it has no songs), and `now` is `datetime.utcnow()`. -/

/-- Endpoint `play_radio`: hydrate the playlist from the store if it is empty; then,
if the playlist is non-empty and the radio is not already playing, set
`current_song` to the first playlist entry unless one is already set, set
`is_playing`, set `start_time`, and broadcast the new state. -/
def play_radio (s : RadioState) (hyd : List Song) (now : Nat) :
    RadioState × List Snapshot :=
  let s1 := if s.playlist.isEmpty then { s with playlist := hyd } else s
  if s1.playlist.isEmpty = false ∧ s1.is_playing = false then
    let s2 := { s1 with
      current_song := if s1.current_song.isNone then s1.playlist.head?
                      else s1.current_song
      is_playing := true
      start_time := some now }
    (s2, [snapshotOf s2])
  else (s1, [])

/-- Endpoint `pause_radio`: unconditionally set `is_playing := false` and broadcast
the new state. -/
def pause_radio (s : RadioState) : RadioState × List Snapshot :=
  let s2 := { s with is_playing := false }
  (s2, [snapshotOf s2])

/-- Endpoint `next_song`: if the playlist is non-empty and a current song is set,
locate the current song in the playlist by id (first match, `-1`-style
failure modelled by `Option`); if found at an index other than the last,
move `current_song` to the next entry, reset `start_time` to now and
`current_position` to `0.0`, and broadcast; in every other case do nothing
(no wrap-around, playback state untouched). -/
def next_song (s : RadioState) (now : Nat) : RadioState × List Snapshot :=
  if s.playlist.isEmpty = false then
    match s.current_song with
    | some cur =>
      match s.playlist.findIdx? (fun song => song.id == cur.id) with
      | some i =>
        if i < s.playlist.length - 1 then
          let s2 := { s with
            current_song := s.playlist[i + 1]?
            start_time := some now
            current_position := Json.num 0 }
          (s2, [snapshotOf s2])
        else (s, [])
      | none => (s, [])
    | none => (s, [])
  else (s, [])

/-- The `position_update` assignment in `websocket_endpoint`:
`radio_state.current_position = message.get("position", 0.0)` — the raw
reported value is stored with no validation and no clamping. -/
def report_position (s : RadioState) (p : Json) : RadioState :=
  { s with current_position := p }

/-! ## Connection manager -/

/-- Combined server state: the `RadioState` singleton plus the
`ConnectionManager.active_connections` list (connections identified by
opaque `Nat` handles). -/
structure ServerState where
  radio : RadioState
  conns : List Nat

/-- Process start: default `RadioState`, no connections. -/
def initServer : ServerState :=
  { radio := initRadio, conns := [] }

/-- Method `ConnectionManager.connect`: append the connection, set
`radio_state.listeners` to the new connection count, and broadcast the new
state. Returns the new server state and the broadcasts performed. -/
def connect (st : ServerState) (c : Nat) : ServerState × List Snapshot :=
  let conns2 := st.conns ++ [c]
  let r2 := { st.radio with listeners := conns2.length }
  ({ radio := r2, conns := conns2 }, [snapshotOf r2])

/-- Method `ConnectionManager.disconnect`: `active_connections.remove(websocket)`
removes the first occurrence and recomputes `listeners`; when the connection
is not present, `list.remove` raises `ValueError`, modelled as `none`
(no state is mutated before the raise). No broadcast is performed. -/
def disconnect (st : ServerState) (c : Nat) : Option ServerState :=
  if c ∈ st.conns then
    let conns2 := st.conns.erase c
    some { radio := { st.radio with listeners := conns2.length }
           conns := conns2 }
  else none

/-! ## Broadcast fan-out with per-connection failures

`ConnectionManager.broadcast` serializes one payload, then iterates the
connection list: each `send_text` either succeeds (delivery) or raises
(caught by the bare `except`, connection collected into `disconnected`);
after the loop every collected connection is removed via
`self.disconnect(conn)`. `ok c` tells whether the send to `c` succeeds. -/

/-- The send loop of `ConnectionManager.broadcast`: returns the deliveries
(connection paired with the payload it received, in list order) and the
`disconnected` list of connections whose send raised, in list order. -/
def broadcastLoop (payload : Snapshot) (ok : Nat → Bool) :
    List Nat → List (Nat × Snapshot) × List Nat
  | [] => ([], [])
  | c :: rest =>
    let r := broadcastLoop payload ok rest
    if ok c then ((c, payload) :: r.1, r.2) else (r.1, c :: r.2)

/-- The removal pass of `ConnectionManager.broadcast`: `disconnect` each
collected connection in turn, i.e. remove its first occurrence. -/
def removeConnections (conns disc : List Nat) : List Nat :=
  disc.foldl (fun acc c => acc.erase c) conns

/-- Method `ConnectionManager.broadcast`: no-op on an empty connection list;
otherwise run the send loop and then unregister every failed connection.
Returns the deliveries and the connection list as it stands afterwards. -/
def broadcast (conns : List Nat) (ok : Nat → Bool) (payload : Snapshot) :
    List (Nat × Snapshot) × List Nat :=
  if conns.isEmpty then ([], conns)
  else
    let r := broadcastLoop payload ok conns
    (r.1, removeConnections conns r.2)

/-! ## Websocket inbound message handling -/

/-- A Python exception escaping the message-handling `try` block of
`websocket_endpoint` (whose `except` clause catches only
`json.JSONDecodeError`). -/
inductive PyErr where
  | attributeError
deriving DecidableEq, Repr

/-- An outbound side effect of handling one inbound websocket message:
the chat branch persists a `ChatMessage` built from the raw `username` and
`message` payload values and broadcasts it to all connections (id and
timestamp generation are external). -/
inductive WsOut where
  | chatMessage (username : Json) (text : Json)

/-- One iteration of the `websocket_endpoint` receive loop, after
`receive_text` returned a frame. `data = none` models a frame on which
`json.loads` raises `json.JSONDecodeError` (caught: `pass`); `data = some j`
models a frame parsing to the JSON value `j`. On a non-object value,
`message.get("type")` raises `AttributeError`, which the inner `except`
(only `json.JSONDecodeError`) does not catch — modelled as `.error`.
On an object: a `"position_update"` tag stores the raw `"position"` value
(default `0.0`); a `"chat"` tag persists and broadcasts a chat message
built from `"username"` (default `"Anónimo"`) and `"message"` (default
`""`); any other tag falls through the `if/elif` with no effect. This
definition is the object-tagged branch of that dispatch. -/
def handle_obj_message (s : RadioState) (fields : List (String × Json)) :
    RadioState × List WsOut :=
  match lookupField fields "type" with
  | some (Json.str t) =>
    if t = "position_update" then
      (report_position s ((lookupField fields "position").getD (Json.num 0)), [])
    else if t = "chat" then
      (s, [WsOut.chatMessage
            ((lookupField fields "username").getD (Json.str "Anónimo"))
            ((lookupField fields "message").getD (Json.str ""))])
    else (s, [])
  | _ => (s, [])

/-- Dispatch on the parse outcome of the frame: parse failure is caught and
dropped; a JSON object is dispatched on its tag; any other JSON value makes
`message.get("type")` raise `AttributeError`, uncaught by the inner
`except`. -/
def handle_ws_message (s : RadioState) (data : Option Json) :
    Except PyErr (RadioState × List WsOut) :=
  match data with
  | none => .ok (s, [])
  | some (Json.obj fields) => .ok (handle_obj_message s fields)
  | some _ => .error PyErr.attributeError

/-- One receive-loop iteration at the server level: the handler touches only
`RadioState`; the connection registry is untouched in every case, and in the
`.error` case the exception propagates past the outer `except
WebSocketDisconnect` without `manager.disconnect` being called. -/
def ws_iteration (st : ServerState) (data : Option Json) :
    Except PyErr (ServerState × List WsOut) :=
  match handle_ws_message st.radio data with
  | .ok (r, evs) => .ok ({ st with radio := r }, evs)
  | .error e => .error e

/-! ## Playlist membership endpoint -/

/-- The result object of a Mongo `update_one`. -/
structure UpdateResult where
  matched_count : Nat
  modified_count : Nat
deriving DecidableEq, Repr

/-- The call `db.playlists.update_one({"id": pid}, {"$addToSet": {"songs": sid}})`:
find the first document whose `id` matches; `$addToSet` appends the song id
only if absent; `modified_count` is 1 exactly when the document changed. -/
def update_one_addToSet : List Playlist → String → String → List Playlist × UpdateResult
  | [], _, _ => ([], { matched_count := 0, modified_count := 0 })
  | p :: rest, pid, sid =>
    if p.id == pid then
      if sid ∈ p.songs then
        (p :: rest, { matched_count := 1, modified_count := 0 })
      else
        ({ p with songs := p.songs ++ [sid] } :: rest,
         { matched_count := 1, modified_count := 1 })
    else
      let r := update_one_addToSet rest pid sid
      (p :: r.1, r.2)

/-- A FastAPI `HTTPException` carried to the client: status code + detail. -/
structure HTTPErr where
  status_code : Nat
  detail : String
deriving DecidableEq, Repr

/-- Endpoint `POST /playlists/{playlist_id}/songs/{song_id}`: run the `$addToSet`
update, then raise 404 "Playlist no encontrada" when `modified_count == 0`,
else answer the success message. Returns the store after the update and the
response. -/
def add_song_to_playlist (store : List Playlist) (pid sid : String) :
    List Playlist × Except HTTPErr String :=
  let r := update_one_addToSet store pid sid
  if r.2.modified_count == 0 then
    (r.1, .error { status_code := 404, detail := "Playlist no encontrada" })
  else
    (r.1, .ok "Canción agregada a la playlist")

/-! ## Song upload endpoint -/

/-- An incoming multipart upload: original filename, declared content type,
byte length of the content. -/
structure UploadIn where
  filename : String
  content_type : String
  size : Nat
deriving DecidableEq, Repr

/-- Metadata extracted by mutagen from the saved file: optional embedded
title (`TIT2`) and artist (`TPE1`) tags and the duration; `none` for the
whole record models a file mutagen cannot parse (the bare `except` falls
back to filename-derived metadata). -/
structure AudioTags where
  title : Option String
  artist : Option String
  duration : Int
deriving DecidableEq, Repr

/-- Python `str.startswith`: character-wise prefix test. -/
def strStartsWith (s pre : String) : Bool :=
  pre.data.isPrefixOf s.data

/-- Python `str(HTTPException)`: `"<status>: <detail>"`, as interpolated into the
500 wrapper's detail string. -/
def httpErrStr (e : HTTPErr) : String :=
  toString e.status_code ++ ": " ++ e.detail

/-- The body of `upload_song`'s `try` block: reject a content type that does
not start with `"audio/"` via `HTTPException(400, ...)`; otherwise save the
file under a fresh `uuid.ext` name, extract metadata with fallbacks
(title defaults to the original filename, artist to "Artista Desconocido",
duration to 0), build the `Song`, insert it into the `songs` collection,
and return it. `fileId` and `songId` are the two generated uuid4 values,
`now` the upload timestamp. -/
def upload_song_body (dbSongs : List Song) (file : UploadIn)
    (tags : Option AudioTags) (fileId songId : String) (now : Nat) :
    Except HTTPErr (List Song × Song) :=
  if strStartsWith file.content_type "audio/" = false then
    .error { status_code := 400, detail := "Solo se permiten archivos de audio" }
  else
    let ext := (file.filename.splitOn ".").getLastD ""
    let unique_filename := fileId ++ "." ++ ext
    let title := match tags with
      | some t => t.title.getD file.filename
      | none => file.filename
    let artist := match tags with
      | some t => t.artist.getD "Artista Desconocido"
      | none => "Artista Desconocido"
    let duration := match tags with
      | some t => t.duration
      | none => 0
    let song : Song :=
      { id := songId, title := title, artist := artist
        filename := unique_filename, duration := duration
        file_size := file.size, upload_date := now }
    .ok (dbSongs ++ [song], song)

/-- Endpoint `POST /songs/upload`: the whole body runs inside
`try: ... except Exception as e: raise HTTPException(500, f"Error subiendo
archivo: {e}")`. `HTTPException` derives from `Exception`, so the 400 raised
for a non-audio content type is itself caught and re-raised with status 500.
Returns the `songs` collection afterwards and the response. -/
def upload_song (dbSongs : List Song) (file : UploadIn)
    (tags : Option AudioTags) (fileId songId : String) (now : Nat) :
    List Song × Except HTTPErr Song :=
  match upload_song_body dbSongs file tags fileId songId now with
  | .ok (db2, song) => (db2, .ok song)
  | .error e =>
    (dbSongs, .error { status_code := 500
                       detail := "Error subiendo archivo: " ++ httpErrStr e })

/-! ## Operation sequences over the server state -/

/-- One command against the live server: the radio-control endpoints, a
`position_update` message, and registry register/unregister. `play` carries
the hydration result and the current time, `advance` the current time. -/
inductive Op where
  | play (hyd : List Song) (now : Nat)
  | pause
  | advance (now : Nat)
  | reportPos (p : Json)
  | register (c : Nat)
  | unregister (c : Nat)

/-- Apply one command, collecting the radio-state broadcasts it performs.
An `unregister` of an absent connection raises `ValueError` before any
mutation, leaving the state unchanged. -/
def stepOpE (st : ServerState) (op : Op) : ServerState × List Snapshot :=
  match op with
  | .play hyd now =>
    let r := play_radio st.radio hyd now
    ({ st with radio := r.1 }, r.2)
  | .pause =>
    let r := pause_radio st.radio
    ({ st with radio := r.1 }, r.2)
  | .advance now =>
    let r := next_song st.radio now
    ({ st with radio := r.1 }, r.2)
  | .reportPos p => ({ st with radio := report_position st.radio p }, [])
  | .register c => connect st c
  | .unregister c =>
    match disconnect st c with
    | some st2 => (st2, [])
    | none => (st, [])

/-- Apply one command, state only. -/
def stepOp (st : ServerState) (op : Op) : ServerState :=
  (stepOpE st op).1

/-- Run a command sequence from process start. -/
def run (ops : List Op) : ServerState :=
  ops.foldl stepOp initServer

/-! ## Boolean invariant helpers -/

/-- Returns `true` unless the value is a strictly negative JSON number. -/
def Json.nonnegNum : Json → Bool
  | .num n => decide (0 ≤ n)
  | _ => true

/-- The position carried by the command, if any, is non-negative. -/
def reportedNonNeg : Op → Bool
  | .reportPos p => p.nonnegNum
  | _ => true

/-! ## Concrete instances used to exercise the definitions -/

/-- A concrete song. -/
def songA : Song :=
  { id := "s1", title := "Song A", artist := "Artist A", filename := "a.mp3"
    duration := 180, file_size := 1000, upload_date := 0 }

/-- A second concrete song. -/
def songB : Song :=
  { id := "s2", title := "Song B", artist := "Artist B", filename := "b.mp3"
    duration := 200, file_size := 2000, upload_date := 0 }

/-- A song whose id appears in no playlist below. -/
def songGhost : Song :=
  { id := "zz", title := "Ghost", artist := "", filename := "z.mp3"
    duration := 10, file_size := 10, upload_date := 0 }

/-- A stored playlist that already contains song `"s1"`. -/
def plTest : Playlist :=
  { id := "p1", name := "Test", songs := ["s1"], created_date := 0
    is_active := false }

/-- A non-audio upload. -/
def uploadTxt : UploadIn :=
  { filename := "notes.txt", content_type := "text/plain", size := 3 }

/-- Playing state: a two-song playlist with the first song current. -/
def rAB : RadioState :=
  { initRadio with
    playlist := [songA, songB], current_song := some songA
    is_playing := true, start_time := some 5 }

/-- Same playlist with the last song current. -/
def rLast : RadioState :=
  { rAB with current_song := some songB }

/-- Same playlist with a current song that is not in it. -/
def rGhost : RadioState :=
  { rAB with current_song := some songGhost }

/-- A one-song playlist with three listeners counted. -/
def r3 : RadioState :=
  { initRadio with playlist := [songA], listeners := 3 }

/-- The snapshot broadcast by `play_radio` from `r3`. -/
def snapPost : Snapshot :=
  snapshotOf (play_radio r3 [] 10).1

/-- Sends succeed on every connection except handle 2. -/
def okNot2 : Nat → Bool :=
  fun c => !(c == 2)

/-- One registered connection, handle 4. -/
def stOne : ServerState :=
  { radio := { initRadio with listeners := 1 }, conns := [4] }

/-- No connections, playback position 5. -/
def stPos5 : ServerState :=
  { radio := { initRadio with current_position := Json.num 5 }, conns := [] }

/-- A command sequence whose every reported position is non-negative. -/
def opsNonNeg : List Op :=
  [Op.register 1, Op.play [songA] 5, Op.reportPos (Json.num 3), Op.advance 7]

/-- Register a listener, then start playback of a two-song playlist. -/
def opsPlay : List Op :=
  [Op.register 1, Op.play [songA, songB] 5]

/-! ## Helper lemmas -/

theorem head?_ne_none_of_not_isEmpty {α : Type} (l : List α)
    (h : l.isEmpty = false) : l.head? ≠ none := by
  cases l <;> simp_all

theorem play_radio_position (s : RadioState) (hyd : List Song) (now : Nat) :
    (play_radio s hyd now).1.current_position = s.current_position := by
  unfold play_radio
  split <;> (try dsimp only) <;> (split <;> rfl)

theorem play_radio_listeners (s : RadioState) (hyd : List Song) (now : Nat) :
    (play_radio s hyd now).1.listeners = s.listeners := by
  unfold play_radio
  split <;> (try dsimp only) <;> (split <;> rfl)

theorem play_radio_inv (s : RadioState) (hyd : List Song) (now : Nat)
    (h : s.is_playing = true → s.current_song ≠ none) :
    (play_radio s hyd now).1.is_playing = true →
    (play_radio s hyd now).1.current_song ≠ none := by
  unfold play_radio
  split <;> (try dsimp only) <;> split
  case isTrue.isTrue h1 h2 =>
    intro _
    dsimp only
    split
    case isTrue h3 => exact head?_ne_none_of_not_isEmpty _ h2.1
    case isFalse h3 =>
      cases hc : s.current_song with
      | none => rw [hc] at h3; simp at h3
      | some _ => simp
  case isTrue.isFalse h1 h2 => intro hp; exact h hp
  case isFalse.isTrue h1 h2 =>
    intro _
    dsimp only
    split
    case isTrue h3 => exact head?_ne_none_of_not_isEmpty _ h2.1
    case isFalse h3 =>
      cases hc : s.current_song with
      | none => rw [hc] at h3; simp at h3
      | some _ => simp
  case isFalse.isFalse h1 h2 => intro hp; exact h hp

theorem next_song_inv (s : RadioState) (now : Nat)
    (h : s.is_playing = true → s.current_song ≠ none) :
    (next_song s now).1.is_playing = true →
    (next_song s now).1.current_song ≠ none := by
  unfold next_song
  split
  case isTrue h1 =>
    cases hc : s.current_song with
    | none => intro hp; exact h hp
    | some cur =>
      dsimp only
      cases hf : s.playlist.findIdx? (fun song => song.id == cur.id) with
      | none => intro hp; rw [hc]; simp
      | some i =>
        dsimp only
        split
        case isTrue h2 =>
          intro _
          dsimp only
          have hlen : i + 1 < s.playlist.length := by
            have hne : s.playlist.length ≠ 0 := by
              intro h0
              rw [List.length_eq_zero.mp h0] at h1
              simp at h1
            omega
          rw [List.getElem?_eq_getElem hlen]
          simp
        case isFalse h2 => intro hp; rw [hc]; simp
  case isFalse h1 => intro hp; exact h hp

theorem next_song_position (s : RadioState) (now : Nat) :
    (next_song s now).1.current_position = s.current_position ∨
    (next_song s now).1.current_position = Json.num 0 := by
  unfold next_song
  split
  · split
    · split
      · split
        · right; rfl
        · left; rfl
      · left; rfl
    · left; rfl
  · left; rfl

theorem stepOp_unregister_radio (st : ServerState) (c : Nat) :
    (stepOp st (Op.unregister c)).radio.current_song = st.radio.current_song ∧
    (stepOp st (Op.unregister c)).radio.is_playing = st.radio.is_playing ∧
    (stepOp st (Op.unregister c)).radio.current_position = st.radio.current_position := by
  by_cases hm : c ∈ st.conns <;> simp [stepOp, stepOpE, disconnect, hm]

theorem stepOp_inv (st : ServerState) (op : Op)
    (h : st.radio.is_playing = true → st.radio.current_song ≠ none) :
    (stepOp st op).radio.is_playing = true →
    (stepOp st op).radio.current_song ≠ none := by
  cases op with
  | play hyd now =>
    simp only [stepOp, stepOpE]
    exact play_radio_inv st.radio hyd now h
  | pause =>
    simp only [stepOp, stepOpE]
    intro hp
    simp [pause_radio] at hp
  | advance now =>
    simp only [stepOp, stepOpE]
    exact next_song_inv st.radio now h
  | reportPos p =>
    simp only [stepOp, stepOpE]
    exact h
  | register c =>
    simp only [stepOp, stepOpE, connect]
    exact h
  | unregister c =>
    intro hp
    rw [(stepOp_unregister_radio st c).1]
    apply h
    rw [(stepOp_unregister_radio st c).2.1] at hp
    exact hp

theorem foldl_stepOp_inv (ops : List Op) :
    ∀ st : ServerState,
      (st.radio.is_playing = true → st.radio.current_song ≠ none) →
      ((ops.foldl stepOp st).radio.is_playing = true →
       (ops.foldl stepOp st).radio.current_song ≠ none) := by
  induction ops with
  | nil => intro st h; exact h
  | cons op rest ih =>
    intro st h
    exact ih (stepOp st op) (stepOp_inv st op h)

/-! ## Claims -/

/-- C7: for every sequence of operations (play, pause, advance,
report_position, register, unregister) starting from the initial
`RadioState`, after each operation `is_playing = true` implies
`current_song` is non-null. (Every prefix of a sequence is itself a
sequence, so quantifying over all sequences covers "after each
operation".) -/
theorem c7_playing_implies_song (ops : List Op)
    (h : (run ops).radio.is_playing = true) :
    (run ops).radio.current_song ≠ none := by
  refine foldl_stepOp_inv ops initServer ?_ h
  intro h0
  simp [initServer, initRadio] at h0

/-- C7 witness: after registering a listener and starting playback of a
two-song playlist, the radio is playing and a current song is set. -/
theorem c7_witness :
    (run opsPlay).radio.is_playing = true ∧
    (run opsPlay).radio.current_song ≠ none :=
  ⟨rfl, c7_playing_implies_song opsPlay rfl⟩

/-- C10: `next_song` never modifies `is_playing`, the playlist contents,
the listener count, or `is_live`, for every starting state — advancing
while paused leaves the state paused, and only `current_song`,
`start_time` and `current_position` can change. -/
theorem c10_advance_frame (s : RadioState) (now : Nat) :
    (next_song s now).1.is_playing = s.is_playing ∧
    (next_song s now).1.playlist = s.playlist ∧
    (next_song s now).1.listeners = s.listeners ∧
    (next_song s now).1.is_live = s.is_live := by
  unfold next_song
  split
  · split
    · split
      · split
        · exact ⟨rfl, rfl, rfl, rfl⟩
        · exact ⟨rfl, rfl, rfl, rfl⟩
      · exact ⟨rfl, rfl, rfl, rfl⟩
    · exact ⟨rfl, rfl, rfl, rfl⟩
  · exact ⟨rfl, rfl, rfl, rfl⟩

/-- C1: the claim states that the add-song endpoint succeeds when the song
is already a member and returns 404 exactly when the playlist is unknown.
The code checks `modified_count == 0`, which is also 0 when the playlist
exists but `$addToSet` left it unchanged: adding song "s1" to the existing
playlist "p1" that already contains it yields 404 "Playlist no encontrada"
while the store still holds exactly one occurrence of "s1". -/
theorem c1_404_on_existing_member :
    plTest.id = "p1" ∧
    "s1" ∈ plTest.songs ∧
    plTest.songs.count "s1" = 1 ∧
    (add_song_to_playlist [plTest] "p1" "s1").2 =
      .error { status_code := 404, detail := "Playlist no encontrada" } ∧
    (add_song_to_playlist [plTest] "p1" "s1").1 = [plTest] := by
  refine ⟨rfl, by decide, by decide, rfl, rfl⟩

/-- C4: the claim states that a non-audio upload is rejected with a 4xx
client error. The code raises `HTTPException(400, ...)` for it, but inside
the `try` whose `except Exception` re-raises everything as status 500, so
the caller sees a 500 server error; no `Song` record is created. -/
theorem c4_upload_nonaudio_500 :
    strStartsWith uploadTxt.content_type "audio/" = false ∧
    (upload_song [] uploadTxt none "f1" "id1" 0).2 =
      .error { status_code := 500
               detail := "Error subiendo archivo: 400: Solo se permiten archivos de audio" } ∧
    (upload_song [] uploadTxt none "f1" "id1" 0).1 = [] := by
  refine ⟨by decide, rfl, rfl⟩

/-- C5 counterexample: the claim says unregistering an absent connection is
a no-op raising no error, but `list.remove` raises `ValueError` (modelled
`none`): disconnecting handle 7, which is not registered, errors. -/
theorem c5_counterexample :
    (7 ∉ initServer.conns) ∧ disconnect initServer 7 = none :=
  ⟨by decide, rfl⟩

/-- C5 amended: `disconnect` removes a present connection and recomputes
the listener count from the remaining registry, leaving playback state
untouched; on an absent connection it raises `ValueError` instead of being
an idempotent no-op. -/
theorem c5_disconnect_behavior (st : ServerState) (c : Nat) :
    (c ∉ st.conns → disconnect st c = none) ∧
    (c ∈ st.conns → ∃ st2, disconnect st c = some st2 ∧
        st2.conns = st.conns.erase c ∧
        st2.radio.listeners = st2.conns.length ∧
        st2.radio.current_song = st.radio.current_song ∧
        st2.radio.is_playing = st.radio.is_playing ∧
        st2.radio.current_position = st.radio.current_position) := by
  constructor
  · intro hm
    simp [disconnect, hm]
  · intro hm
    exact ⟨{ radio := { st.radio with listeners := (st.conns.erase c).length }
             conns := st.conns.erase c },
           by simp [disconnect, hm], rfl, rfl, rfl, rfl, rfl⟩

/-- C5 witness: with only handle 4 registered, disconnecting handle 5
raises and disconnecting handle 4 succeeds. -/
theorem c5_witness :
    disconnect stOne 5 = none ∧ (disconnect stOne 4).isSome = true := by
  refine ⟨(c5_disconnect_behavior stOne 5).1 (by decide), ?_⟩
  obtain ⟨st2, h2, -, -, -, -, -⟩ := (c5_disconnect_behavior stOne 4).2 (by decide)
  rw [h2]
  rfl

theorem stepOp_nonneg (st : ServerState) (op : Op)
    (h : st.radio.current_position.nonnegNum = true)
    (hop : reportedNonNeg op = true) :
    (stepOp st op).radio.current_position.nonnegNum = true := by
  cases op with
  | play hyd now =>
    simp only [stepOp, stepOpE]
    rw [play_radio_position]
    exact h
  | pause =>
    simp only [stepOp, stepOpE, pause_radio]
    exact h
  | advance now =>
    simp only [stepOp, stepOpE]
    rcases next_song_position st.radio now with hp | hp <;> rw [hp]
    · exact h
    · rfl
  | reportPos p =>
    simp only [stepOp, stepOpE, report_position]
    exact hop
  | register c =>
    simp only [stepOp, stepOpE, connect]
    exact h
  | unregister c =>
    rw [(stepOp_unregister_radio st c).2.2]
    exact h

theorem foldl_stepOp_nonneg (ops : List Op) :
    ∀ st : ServerState, st.radio.current_position.nonnegNum = true →
      ops.all reportedNonNeg = true →
      (ops.foldl stepOp st).radio.current_position.nonnegNum = true := by
  induction ops with
  | nil => intro st h _; exact h
  | cons op rest ih =>
    intro st h hall
    rw [List.all_cons, Bool.and_eq_true] at hall
    exact ih (stepOp st op) (stepOp_nonneg st op h hall.1) hall.2

/-- C3 counterexample: the claim says negative reported positions are
clamped to 0 so the position is always non-negative; but after a
`position_update` reporting −5, `current_position` is −5. -/
theorem c3_counterexample :
    (run [Op.reportPos (Json.num (-5))]).radio.current_position = Json.num (-5) ∧
    ((-5 : Int) < 0) :=
  ⟨rfl, by decide⟩

/-- C3 amended: `report_position` stores the reported value exactly as
received, with no clamping (so a negative report makes the position
negative); the position stays non-negative after every operation of a
sequence provided every reported position in it is non-negative. -/
theorem c3_position_no_clamping :
    (∀ (s : RadioState) (p : Json), report_position s p = { s with current_position := p }) ∧
    (∀ ops : List Op, ops.all reportedNonNeg = true →
      (run ops).radio.current_position.nonnegNum = true) := by
  constructor
  · intro s p
    rfl
  · intro ops hall
    exact foldl_stepOp_nonneg ops initServer rfl hall

/-- C3 witness: a sequence whose reported positions are all non-negative
keeps the position non-negative. -/
theorem c3_witness :
    opsNonNeg.all reportedNonNeg = true ∧
    (run opsNonNeg).radio.current_position.nonnegNum = true :=
  ⟨by decide, c3_position_no_clamping.2 opsNonNeg (by decide)⟩


theorem play_radio_spec (s : RadioState) (hyd : List Song) (now : Nat) :
    ((play_radio s hyd now).2 = [snapshotOf (play_radio s hyd now).1]) ∨
    ((play_radio s hyd now).2 = [] ∧
     (play_radio s hyd now).1.is_playing = s.is_playing) := by
  unfold play_radio
  split <;> (try dsimp only) <;> split
  · left; rfl
  · right; exact ⟨rfl, rfl⟩
  · left; rfl
  · right; exact ⟨rfl, rfl⟩

theorem next_song_spec (s : RadioState) (now : Nat) :
    ((next_song s now).2 = [snapshotOf (next_song s now).1]) ∨
    ((next_song s now).2 = [] ∧ (next_song s now).1 = s) := by
  unfold next_song
  split
  · split
    · split
      · split
        · left; rfl
        · right; exact ⟨rfl, rfl⟩
      · right; exact ⟨rfl, rfl⟩
    · right; exact ⟨rfl, rfl⟩
  · right; exact ⟨rfl, rfl⟩

/-- C2 counterexample: the claim says every mutating operation broadcasts
the new snapshot afterwards; but a `position_update` that changes the
position broadcasts nothing, and unregistering a present connection changes
the listener count and broadcasts nothing. -/
theorem c2_counterexample :
    (stepOpE stPos5 (Op.reportPos (Json.num 7))).2 = [] ∧
    (stepOpE stPos5 (Op.reportPos (Json.num 7))).1.radio.current_position = Json.num 7 ∧
    stPos5.radio.current_position = Json.num 5 ∧
    Json.num 7 ≠ Json.num 5 ∧
    (stepOpE stOne (Op.unregister 4)).2 = [] ∧
    (stepOpE stOne (Op.unregister 4)).1.radio.listeners = 0 ∧
    stOne.radio.listeners = 1 := by
  refine ⟨rfl, rfl, rfl, ?_, rfl, rfl, rfl⟩
  intro h
  injection h with h2
  exact absurd h2 (by decide)

/-- C2 amended: `play`, `pause`, `advance` and `register` broadcast the
post-mutation snapshot as their last step — `pause` and `register` always,
`play` and `advance` whenever they change the playback state, and every
broadcast they make carries the post-mutation state, never the pre-mutation
one; `report_position` and `unregister` mutate state without broadcasting
anything. -/
theorem c2_broadcast_discipline (s : RadioState) (hyd : List Song)
    (now : Nat) (p : Json) (st : ServerState) (c : Nat) :
    (pause_radio s).2 = [snapshotOf (pause_radio s).1] ∧
    (∀ e ∈ (play_radio s hyd now).2, e = snapshotOf (play_radio s hyd now).1) ∧
    ((play_radio s hyd now).1.is_playing ≠ s.is_playing →
      (play_radio s hyd now).2 = [snapshotOf (play_radio s hyd now).1]) ∧
    (∀ e ∈ (next_song s now).2, e = snapshotOf (next_song s now).1) ∧
    ((next_song s now).1.current_song ≠ s.current_song →
      (next_song s now).2 = [snapshotOf (next_song s now).1]) ∧
    (connect st c).2 = [snapshotOf (connect st c).1.radio] ∧
    (stepOpE st (Op.reportPos p)).2 = [] ∧
    (stepOpE st (Op.unregister c)).2 = [] := by
  refine ⟨rfl, ?_, ?_, ?_, ?_, rfl, rfl, ?_⟩
  · intro e he
    rcases play_radio_spec s hyd now with hb | hb
    · rw [hb] at he
      simpa using he
    · rw [hb.1] at he
      simp at he
  · intro hne
    rcases play_radio_spec s hyd now with hb | hb
    · exact hb
    · exact absurd hb.2 hne
  · intro e he
    rcases next_song_spec s now with hb | hb
    · rw [hb] at he
      simpa using he
    · rw [hb.1] at he
      simp at he
  · intro hne
    rcases next_song_spec s now with hb | hb
    · exact hb
    · rw [hb.2] at hne
      exact absurd rfl hne
  · show (match disconnect st c with
      | some st2 => (st2, ([] : List Snapshot))
      | none => (st, [])).2 = []
    cases disconnect st c <;> rfl

/-- C2 witness: pausing always broadcasts; an advance that changes the song
broadcasts the post-advance snapshot; a play that starts playback broadcasts
the post-play snapshot. -/
theorem c2_witness :
    (pause_radio rAB).2 = [snapshotOf (pause_radio rAB).1] ∧
    (next_song rAB 7).2 = [snapshotOf (next_song rAB 7).1] ∧
    (play_radio initRadio [songA] 3).2 = [snapshotOf (play_radio initRadio [songA] 3).1] := by
  have h := c2_broadcast_discipline rAB [songA] 3 (Json.num 0) stOne 4
  have h2 := c2_broadcast_discipline initRadio [songA] 3 (Json.num 0) stOne 4
  exact ⟨h.1, h.2.2.2.2.1 (by decide), h2.2.2.1 (by decide)⟩

/-- C6 counterexample: the claim says every malformed inbound message is
silently dropped with no error on the connection; but a frame that parses
to valid JSON which is not an object (here the number 42) makes
`message.get("type")` raise `AttributeError`, which the handler's
`except json.JSONDecodeError` does not catch — an error escapes on the
connection while handle 4 is still registered. -/
theorem c6_counterexample :
    ws_iteration stOne (some (Json.num 42)) = .error PyErr.attributeError ∧
    stOne.conns = [4] :=
  ⟨rfl, rfl⟩

/-- C6 amended: a frame that fails JSON parsing is silently dropped
(no error, registry and `RadioState` unchanged), and so is a JSON object
whose `type` tag is missing, non-string, or neither `position_update` nor
`chat`; but a deserializable frame that is not a JSON object raises an
uncaught `AttributeError`, terminating the handler without unregistering
the connection. -/
theorem c6_malformed_handling (st : ServerState)
    (fields : List (String × Json)) (j : Json) :
    ws_iteration st none = .ok (st, []) ∧
    ((∀ t : String, lookupField fields "type" = some (Json.str t) →
        t ≠ "position_update" ∧ t ≠ "chat") →
      ws_iteration st (some (Json.obj fields)) = .ok (st, [])) ∧
    (j.isObj = false → ws_iteration st (some j) = .error PyErr.attributeError) := by
  refine ⟨rfl, ?_, ?_⟩
  · intro ht
    have hh : handle_obj_message st.radio fields = (st.radio, []) := by
      unfold handle_obj_message
      cases hl : lookupField fields "type" with
      | none => rfl
      | some v =>
        cases v with
        | null => rfl
        | bool b => rfl
        | num n => rfl
        | arr xs => rfl
        | obj f => rfl
        | str t =>
          obtain ⟨h1, h2⟩ := ht t hl
          show (if t = "position_update" then _ else if t = "chat" then _
                else (st.radio, [])) = (st.radio, [])
          rw [if_neg h1, if_neg h2]
    show Except.ok ({ st with radio := (handle_obj_message st.radio fields).1 },
          (handle_obj_message st.radio fields).2) = Except.ok (st, [])
    rw [hh]
  · intro hobj
    cases j with
    | null => rfl
    | bool b => rfl
    | num n => rfl
    | str t => rfl
    | arr xs => rfl
    | obj f => simp [Json.isObj] at hobj

/-- C6 witness: an unparseable frame and an object frame with an unknown
tag are both dropped with the state and registry unchanged; a JSON-array
frame raises `AttributeError`. -/
theorem c6_witness :
    ws_iteration stOne none = .ok (stOne, []) ∧
    ws_iteration stOne (some (Json.obj [("type", Json.str "bogus")])) = .ok (stOne, []) ∧
    ws_iteration stOne (some (Json.arr [])) = .error PyErr.attributeError := by
  have h := c6_malformed_handling stOne [("type", Json.str "bogus")] (Json.arr [])
  refine ⟨h.1, h.2.1 ?_, h.2.2 rfl⟩
  intro t ht
  have ht2 : some (Json.str "bogus") = some (Json.str t) := ht
  injection ht2 with ht3
  injection ht3 with ht4
  subst ht4
  exact ⟨by decide, by decide⟩

/-- C8: `advance` with a current song found in the playlist by id at a
non-last index moves `current_song` to the next playlist entry, resets
`start_time` to now and `current_position` to 0; when the current song is
unset, not found, or last, the state is unchanged — no wrap-around to the
first song and no change to playback. -/
theorem c8_advance_semantics (s : RadioState) (now : Nat) :
    (∀ cur i, s.current_song = some cur →
      s.playlist.findIdx? (fun song => song.id == cur.id) = some i →
      i < s.playlist.length - 1 →
      ∃ nxt, s.playlist[i + 1]? = some nxt ∧
        (next_song s now).1.current_song = some nxt ∧
        (next_song s now).1.start_time = some now ∧
        (next_song s now).1.current_position = Json.num 0) ∧
    (s.current_song = none → (next_song s now).1 = s) ∧
    (∀ cur, s.current_song = some cur →
      s.playlist.findIdx? (fun song => song.id == cur.id) = none →
      (next_song s now).1 = s) ∧
    (∀ cur i, s.current_song = some cur →
      s.playlist.findIdx? (fun song => song.id == cur.id) = some i →
      ¬(i < s.playlist.length - 1) →
      (next_song s now).1 = s ∧ (next_song s now).1.is_playing = s.is_playing) := by
  refine ⟨?_, ?_, ?_, ?_⟩
  · intro cur i hc hf hlt
    have hne : s.playlist.isEmpty = false := by
      cases hp : s.playlist
      · rw [hp] at hf; simp at hf
      · rfl
    have hlen : i + 1 < s.playlist.length := by
      have h0 : s.playlist.length ≠ 0 := by
        intro h0
        rw [List.length_eq_zero.mp h0] at hne
        simp at hne
      omega
    have hstep : (next_song s now).1 = { s with
        current_song := s.playlist[i + 1]?
        start_time := some now
        current_position := Json.num 0 } := by
      unfold next_song
      rw [if_pos hne, hc]
      dsimp only
      rw [hf]
      dsimp only
      rw [if_pos hlt]
    refine ⟨s.playlist[i + 1], List.getElem?_eq_getElem hlen, ?_, ?_, ?_⟩
    · rw [hstep]
      dsimp only
      rw [List.getElem?_eq_getElem hlen]
    · rw [hstep]
    · rw [hstep]
  · intro hc
    unfold next_song
    rw [hc]
    split <;> rfl
  · intro cur hc hf
    unfold next_song
    rw [hc]
    split
    · dsimp only
      rw [hf]
    · rfl
  · intro cur i hc hf hge
    have hstep : (next_song s now).1 = s := by
      unfold next_song
      rw [hc]
      split
      · dsimp only
        rw [hf]
        dsimp only
        rw [if_neg hge]
      · rfl
    exact ⟨hstep, by rw [hstep]⟩

/-- C8 witness: with `[songA, songB]` and songA current, advance moves to
songB and resets the clock; from no current song, from a current song not
in the playlist, and from the last song, advance changes nothing. -/
theorem c8_witness :
    (next_song rAB 7).1.current_song = some songB ∧
    (next_song rAB 7).1.start_time = some 7 ∧
    (next_song rAB 7).1.current_position = Json.num 0 ∧
    (next_song initRadio 3).1 = initRadio ∧
    (next_song rGhost 3).1 = rGhost ∧
    (next_song rLast 9).1 = rLast ∧
    (next_song rLast 9).1.is_playing = rLast.is_playing := by
  obtain ⟨nxt, hn, h1, h2, h3⟩ :=
    (c8_advance_semantics rAB 7).1 songA 0 rfl (by decide) (by decide)
  have hnb : nxt = songB := by
    have h' : some songB = some nxt := hn
    injection h' with h''
    exact h''.symm
  subst hnb
  have hlast := (c8_advance_semantics rLast 9).2.2.2 songB 1 rfl (by decide) (by decide)
  exact ⟨h1, h2, h3, (c8_advance_semantics initRadio 3).2.1 rfl,
         (c8_advance_semantics rGhost 3).2.2.1 songGhost rfl (by decide),
         hlast.1, hlast.2⟩

theorem broadcastLoop_fst (payload : Snapshot) (ok : Nat → Bool) (l : List Nat) :
    (broadcastLoop payload ok l).1 = (l.filter ok).map (fun c => (c, payload)) := by
  induction l with
  | nil => rfl
  | cons c rest ih =>
    by_cases hc : ok c <;> simp [broadcastLoop, List.filter_cons, hc, ih]

theorem broadcastLoop_snd (payload : Snapshot) (ok : Nat → Bool) (l : List Nat) :
    (broadcastLoop payload ok l).2 = l.filter (fun c => !ok c) := by
  induction l with
  | nil => rfl
  | cons c rest ih =>
    by_cases hc : ok c <;> simp [broadcastLoop, List.filter_cons, hc, ih]

theorem removeConnections_cons_not_mem (c : Nat) (t d : List Nat)
    (h : c ∉ d) : removeConnections (c :: t) d = c :: removeConnections t d := by
  induction d generalizing t with
  | nil => rfl
  | cons x d2 ih =>
    have hxc : ¬((c : Nat) == x) = true := by
      simp only [beq_iff_eq]
      intro he
      exact h (he ▸ List.mem_cons_self x d2)
    show removeConnections ((c :: t).erase x) d2 = c :: removeConnections (t.erase x) d2
    rw [List.erase_cons_tail hxc]
    exact ih (t.erase x) (fun hm => h (List.mem_cons_of_mem x hm))

theorem removeConnections_filter (ok : Nat → Bool) (l : List Nat)
    (h : l.Nodup) :
    removeConnections l (l.filter (fun c => !ok c)) = l.filter ok := by
  induction l with
  | nil => rfl
  | cons c t ih =>
    rw [List.nodup_cons] at h
    by_cases hc : ok c
    · rw [List.filter_cons_of_neg (by simp [hc]), List.filter_cons_of_pos (by simp [hc])]
      rw [removeConnections_cons_not_mem c t _ (fun hm => h.1 (List.mem_of_mem_filter hm))]
      rw [ih h.2]
    · rw [List.filter_cons_of_pos (by simp [hc]), List.filter_cons_of_neg (by simp [hc])]
      show removeConnections ((c :: t).erase c) (t.filter (fun x => !ok x)) = t.filter ok
      rw [List.erase_cons_head]
      exact ih h.2

/-- C9: broadcast delivery is best-effort per connection — for a
duplicate-free registry, every connection whose send succeeds receives the
payload (in registry order), failures do not abort delivery to others, and
exactly the failed connections are unregistered afterwards. -/
theorem c9_broadcast_best_effort (conns : List Nat) (ok : Nat → Bool)
    (payload : Snapshot) (h : conns.Nodup) :
    (broadcast conns ok payload).1 = (conns.filter ok).map (fun c => (c, payload)) ∧
    (broadcast conns ok payload).2 = conns.filter ok := by
  unfold broadcast
  split
  case isTrue he =>
    rw [List.isEmpty_iff] at he
    subst he
    exact ⟨rfl, rfl⟩
  case isFalse he =>
    constructor
    · exact broadcastLoop_fst payload ok conns
    · show removeConnections conns (broadcastLoop payload ok conns).2 = conns.filter ok
      rw [broadcastLoop_snd]
      exact removeConnections_filter ok conns h

/-- C9 witness: three registered connections, the send to handle 2 fails,
and the payload is the snapshot produced by a `play` call: handles 1 and 3
both receive it and exactly handles 1 and 3 remain registered. -/
theorem c9_witness :
    ([1, 2, 3] : List Nat).Nodup ∧
    okNot2 2 = false ∧
    (broadcast [1, 2, 3] okNot2 snapPost).1 = [(1, snapPost), (3, snapPost)] ∧
    (broadcast [1, 2, 3] okNot2 snapPost).2 = [1, 3] := by
  have h := c9_broadcast_best_effort [1, 2, 3] okNot2 snapPost (by decide)
  refine ⟨by decide, rfl, ?_, ?_⟩
  · rw [h.1]
    rfl
  · rw [h.2]
    rfl
